import Mathlib

/-!
Shallow embedding of the `runtime-context` crate: a runtime, type-indexed
heterogeneous container.  Type identities (`TypeId`) are modelled as `Nat`
(the underlying 64-bit discriminant), erased values as a payload tagged
with its type identity, borrowed referents live in an explicit heap, and
the `TypeId`-keyed hash map is modelled extensionally as a function from
identities to optional entries.
-/

namespace RuntimeContext

/-- A type-erased value: the payload together with the runtime type identity
(`TypeId`) of its concrete type, as produced by the `better_any` capability. -/
structure Erased (Val : Type) where
  tid : Nat
  val : Val
deriving DecidableEq

/-- The external heap holding the referents of borrowed entries.  The Rust
lifetime contract guarantees every referent of a live borrowed entry is
valid, so the heap is total. -/
def Heap (Val : Type) := Nat → Erased Val

/-- Writing a value into the heap at an address (models a store through a
mutable location). -/
def Heap.write {Val : Type} (heap : Heap Val) (addr : Nat) (e : Erased Val) : Heap Val :=
  fun a => if a = addr then e else heap a

/-- `Data<'ty, 'r>` from `src/data.rs`: stored value variants inside a
`Context`.  `Owned` holds the boxed erased value itself; `Borrowed` and
`Mut` hold a (shared resp. exclusive) reference, modelled as a heap
address. -/
inductive Data (Val : Type) where
  | Owned (value : Erased Val)
  | Borrowed (addr : Nat)
  | Mut (addr : Nat)
deriving DecidableEq

/-- The runtime type identity of the erased value stored in a `Data`
(for borrowed variants, the identity of the referent in the heap). -/
def Data.erasedTid {Val : Type} (heap : Heap Val) : Data Val → Nat
  | .Owned e => e.tid
  | .Borrowed a => (heap a).tid
  | .Mut a => (heap a).tid

/-- `Data::downcast_ref::<T>`: downcast to a shared reference of the
underlying value; succeeds for all three variants if the erased type
matches `T`. -/
def Data.downcast_ref {Val : Type} (T : Nat) (heap : Heap Val) : Data Val → Option Val
  | .Owned e => if e.tid = T then some e.val else none
  | .Borrowed a => if (heap a).tid = T then some (heap a).val else none
  | .Mut a => if (heap a).tid = T then some (heap a).val else none

/-- `Data::downcast_mut::<T>`: downcast to a mutable reference; the
`Borrowed` variant falls into the catch-all `_ => None` arm of the Rust
`match`, the other two downcast the underlying value. -/
def Data.downcast_mut {Val : Type} (T : Nat) (heap : Heap Val) : Data Val → Option Val
  | .Owned e => if e.tid = T then some e.val else none
  | .Mut a => if (heap a).tid = T then some (heap a).val else none
  | .Borrowed _ => none

/-- `Data::into_owned::<T>`: convert into an owned value; `Owned` moves the
boxed value out, the borrowed variants clone the referent; on a type
mismatch the original variant is returned unchanged as the error. -/
def Data.into_owned {Val : Type} (T : Nat) (heap : Heap Val) : Data Val → Except (Data Val) Val
  | .Owned e => if e.tid = T then .ok e.val else .error (.Owned e)
  | .Borrowed a => if (heap a).tid = T then .ok (heap a).val else .error (.Borrowed a)
  | .Mut a => if (heap a).tid = T then .ok (heap a).val else .error (.Mut a)

/-- `Data::try_take_owned::<T>`: take the owned value if present; the
borrowed variants fall into the catch-all `_ => Err(self)` arm. -/
def Data.try_take_owned {Val : Type} (T : Nat) : Data Val → Except (Data Val) Val
  | .Owned e => if e.tid = T then .ok e.val else .error (.Owned e)
  | d => .error d

/-- `Context<'ty, 'r>` from `src/context.rs`: the `TypeMap<Data>` keyed by
`TypeId`, modelled extensionally. -/
structure Context (Val : Type) where
  data : Nat → Option (Data Val)

/-- `Context::new`: create a new empty `Context`. -/
def Context.new {Val : Type} : Context Val :=
  ⟨fun _ => none⟩

/-- `Context::insert_unchecked`: insert a `Data` under a raw `TypeId`
without checking the type (`HashMap::insert` replaces any prior entry). -/
def Context.insert_unchecked {Val : Type} (ctx : Context Val) (key : Nat) (d : Data Val) :
    Context Val :=
  ⟨fun k => if k = key then some d else ctx.data k⟩

/-- `Context::insert`: insert an owned value; stores
`Data::Owned(Box::new(value))` under `T::id()`, so the erased identity of
the boxed value is `T` itself. -/
def Context.insert {Val : Type} (ctx : Context Val) (T : Nat) (v : Val) : Context Val :=
  ctx.insert_unchecked T (.Owned ⟨T, v⟩)

/-- `Context::insert_ref`: insert a shared borrow of a value of type `T`
(the referent lives at `addr` in the heap). -/
def Context.insert_ref {Val : Type} (ctx : Context Val) (T : Nat) (addr : Nat) : Context Val :=
  ctx.insert_unchecked T (.Borrowed addr)

/-- `Context::insert_mut`: insert an exclusive borrow of a value of type
`T` (the referent lives at `addr` in the heap). -/
def Context.insert_mut {Val : Type} (ctx : Context Val) (T : Nat) (addr : Nat) : Context Val :=
  ctx.insert_unchecked T (.Mut addr)

/-- `Context::get`: `self.data.get(&T::id()).map(|v| v.downcast_ref()).flatten()`. -/
def Context.get {Val : Type} (ctx : Context Val) (T : Nat) (heap : Heap Val) : Option Val :=
  (ctx.data T).bind (Data.downcast_ref T heap)

/-- `Context::get_mut`: `self.data.get_mut(&T::id()).map(|v| v.downcast_mut()).flatten()`. -/
def Context.get_mut {Val : Type} (ctx : Context Val) (T : Nat) (heap : Heap Val) : Option Val :=
  (ctx.data T).bind (Data.downcast_mut T heap)

/-- `Context::get_data`: raw `Data` lookup by `TypeId`. -/
def Context.get_data {Val : Type} (ctx : Context Val) (id : Nat) : Option (Data Val) :=
  ctx.data id

/-- `Context::get_data_mut`: raw mutable `Data` lookup by `TypeId` (in the
model the returned handle is the current entry). -/
def Context.get_data_mut {Val : Type} (ctx : Context Val) (id : Nat) : Option (Data Val) :=
  ctx.data id

/-- `Context::get_disjoint_mut`: per-key mutable lookup over `N` distinct
`TypeId`s in one pass; position `i` holds the handle for the `i`-th key. -/
def Context.get_disjoint_mut {Val : Type} (ctx : Context Val) (keys : List Nat) :
    List (Option (Data Val)) :=
  keys.map ctx.data

/-- `HashMap::remove`'s effect on the map: the entry at `key` is gone,
every other entry untouched. -/
def Context.eraseKey {Val : Type} (ctx : Context Val) (key : Nat) : Context Val :=
  ⟨fun k => if k = key then none else ctx.data k⟩

/-- `Context::remove`: remove any stored value for `T::id()` and return
the raw `Data` (the pair is the returned option and the context after). -/
def Context.remove {Val : Type} (ctx : Context Val) (T : Nat) :
    Option (Data Val) × Context Val :=
  (ctx.data T, ctx.eraseKey T)

/-- `Context::take`: `match self.data.remove(&id) { Some(data) =>
data.try_take_owned::<T>().ok(), None => None }` — the entry is removed
first, then the owned extraction is attempted on what came out. -/
def Context.take {Val : Type} (ctx : Context Val) (T : Nat) : Option Val × Context Val :=
  match ctx.data T with
  | some d => ((d.try_take_owned T).toOption, ctx.eraseKey T)
  | none => (none, ctx)

/-- `Context::contains`: presence check by identity only. -/
def Context.contains {Val : Type} (ctx : Context Val) (T : Nat) : Bool :=
  (ctx.data T).isSome

/-- `Context::clear`: clear all values from the context. -/
def Context.clear {Val : Type} (_ : Context Val) : Context Val :=
  ⟨fun _ => none⟩

/-- `TypeIdHasher` from `src/hasher.rs`: its only state is one `u64`. -/
structure TypeIdHasher where
  state : Nat
deriving DecidableEq

/-- `TypeIdHasher::default()`: zero-initialised state. -/
def TypeIdHasher.init : TypeIdHasher :=
  ⟨0⟩

/-- `Hasher::write` for `TypeIdHasher` is
`unimplemented!("This TypeIdHasher can only handle u64s")`: an
unconditional panic, modelled as `none` for every byte sequence. -/
def TypeIdHasher.write (_ : TypeIdHasher) (_ : List Nat) : Option TypeIdHasher :=
  none

/-- `Hasher::write_u64` for `TypeIdHasher`: `self.0 = i` (the value is a
`u64`, hence reduced modulo `2^64`). -/
def TypeIdHasher.write_u64 (_ : TypeIdHasher) (i : Nat) : TypeIdHasher :=
  ⟨i % 2 ^ 64⟩

/-- `Hasher::finish` for `TypeIdHasher`: returns the stored state. -/
def TypeIdHasher.finish (h : TypeIdHasher) : Nat :=
  h.state

example : (((Context.new : Context Nat)).insert 5 7).get 5 (fun _ => ⟨0, 0⟩) = some 7 := by
  decide

example : ((((Context.new : Context Nat)).insert 5 7).take 5).1 = some 7 := by
  decide

example : (((((Context.new : Context Nat)).insert 5 7).take 5).2).contains 5 = false := by
  decide

example : (((Context.new : Context Nat)).insert_ref 3 0).get_mut 3 (fun _ => ⟨3, 9⟩) = none := by
  decide

example : (((Context.new : Context Nat)).insert_ref 3 0).get 3 (fun _ => ⟨3, 9⟩) = some 9 := by
  decide

/-- C1: `take::<T>()` removes the entry for `T`'s identity unconditionally:
`contains::<T>()` is false afterwards regardless of the result, and the
result is `some v` exactly when the removed entry was `Owned` with a value
of matching type `T`; on a `Borrowed`/`Mut` entry or a type mismatch the
result is `none` and the entry is nevertheless gone. -/
theorem take_removes_unconditionally {Val : Type} (ctx : Context Val) (T : Nat) :
    ((ctx.take T).2.contains T = false) ∧
    (∀ v : Val, (ctx.take T).1 = some v ↔ ctx.data T = some (.Owned ⟨T, v⟩)) := by
  refine ⟨?_, ?_⟩
  · cases h : ctx.data T <;>
      simp [Context.take, Context.contains, Context.eraseKey, h]
  · intro v
    cases h : ctx.data T with
    | none => simp [Context.take, h]
    | some d =>
      cases d with
      | Owned e =>
        obtain ⟨t, w⟩ := e
        by_cases ht : t = T <;>
          simp [Context.take, h, Data.try_take_owned, ht, Except.toOption]
      | Borrowed a => simp [Context.take, h, Data.try_take_owned, Except.toOption]
      | Mut a => simp [Context.take, h, Data.try_take_owned, Except.toOption]

/-- C1 witness: taking an owned entry yields the value and leaves
`contains` false at a concrete input. -/
theorem take_removes_unconditionally_witness :
    (((((Context.new : Context Nat)).insert 5 7).take 5).1 = some 7) ∧
    (((((Context.new : Context Nat)).insert 5 7).take 5).2.contains 5 = false) :=
  ⟨((take_removes_unconditionally (((Context.new : Context Nat)).insert 5 7) 5).2 7).mpr
      (by decide),
   (take_removes_unconditionally (((Context.new : Context Nat)).insert 5 7) 5).1⟩

/-- C2: `insert(v)` followed by `get::<T>()` yields `some v`, and
`contains::<T>()` is true (insert/get round-trip). -/
theorem insert_get_roundtrip {Val : Type} (ctx : Context Val) (T : Nat) (v : Val)
    (heap : Heap Val) :
    (ctx.insert T v).get T heap = some v ∧ (ctx.insert T v).contains T = true := by
  simp [Context.insert, Context.insert_unchecked, Context.get, Context.contains,
    Data.downcast_ref]

/-- C3: `downcast_mut` never succeeds on a `Borrowed` entry even when the
erased type matches, succeeds for `Owned` and `Mut` entries of matching
type, and consequently right after `insert_ref::<T>(&v)` the call
`get_mut::<T>()` is `none` while `get::<T>()` is `some v`. -/
theorem downcast_mut_shared_none {Val : Type} (T : Nat) (heap : Heap Val) (a b : Nat)
    (e : Erased Val) (ctx : Context Val) (v : Val)
    (he : e.tid = T) (hb : (heap b).tid = T) (ha : heap a = ⟨T, v⟩) :
    ((Data.Borrowed a : Data Val).downcast_mut T heap = none) ∧
    ((Data.Owned e : Data Val).downcast_mut T heap = some e.val) ∧
    ((Data.Mut b : Data Val).downcast_mut T heap = some (heap b).val) ∧
    ((ctx.insert_ref T a).get_mut T heap = none) ∧
    ((ctx.insert_ref T a).get T heap = some v) := by
  refine ⟨?_, ?_, ?_, ?_, ?_⟩
  · simp [Data.downcast_mut]
  · simp [Data.downcast_mut, he]
  · simp [Data.downcast_mut, hb]
  · simp [Context.insert_ref, Context.insert_unchecked, Context.get_mut, Data.downcast_mut]
  · simp [Context.insert_ref, Context.insert_unchecked, Context.get, Data.downcast_ref, ha]

/-- C3 witness: after a shared-borrow insert, `get_mut` fails while `get`
succeeds at a concrete input. -/
theorem downcast_mut_shared_none_witness :
    ((((Context.new : Context Nat)).insert_ref 3 0).get_mut 3 (fun _ => ⟨3, 9⟩) = none) ∧
    ((((Context.new : Context Nat)).insert_ref 3 0).get 3 (fun _ => ⟨3, 9⟩) = some 9) :=
  ⟨(downcast_mut_shared_none 3 (fun _ => ⟨3, 9⟩) 0 1 ⟨3, 4⟩ Context.new 9
      rfl rfl rfl).2.2.2.1,
   (downcast_mut_shared_none 3 (fun _ => ⟨3, 9⟩) 0 1 ⟨3, 4⟩ Context.new 9
      rfl rfl rfl).2.2.2.2⟩

/-- C4: at most one entry per type identity, preserved by every insert:
each of `insert`, `insert_ref`, `insert_mut`, `insert_unchecked` sets the
entry at the key to exactly the new entry regardless of what was stored
before, so after two inserts for `T` only the second value is retrievable
via `get::<T>()`. -/
theorem insert_replaces {Val : Type} (ctx : Context Val) (T : Nat) (v1 v2 : Val)
    (a b : Nat) (d : Data Val) (heap : Heap Val) :
    (((ctx.insert T v1).insert T v2).get T heap = some v2) ∧
    (((ctx.insert T v1).insert T v2).data T = some (.Owned ⟨T, v2⟩)) ∧
    ((ctx.insert T v2).data T = some (.Owned ⟨T, v2⟩)) ∧
    ((ctx.insert_ref T a).data T = some (.Borrowed a)) ∧
    ((ctx.insert_mut T b).data T = some (.Mut b)) ∧
    ((ctx.insert_unchecked T d).data T = some d) := by
  refine ⟨?_, ?_, ?_, ?_, ?_, ?_⟩ <;>
    simp [Context.insert, Context.insert_ref, Context.insert_mut, Context.insert_unchecked,
      Context.get, Data.downcast_ref]

/-- C5: `try_take_owned::<T>()` succeeds only for `Owned` with matching
erased type; `Borrowed` and `Mut` always fail returning the original
variant unchanged; `remove::<T>()` followed by `try_take_owned::<T>()` on
the result succeeds iff the original entry was `Owned` (of type `T`). -/
theorem try_take_owned_spec {Val : Type} (ctx : Context Val) (T t : Nat) (v : Val)
    (a b : Nat) :
    ((t = T → (Data.Owned ⟨t, v⟩ : Data Val).try_take_owned T = .ok v) ∧
     (t ≠ T → (Data.Owned ⟨t, v⟩ : Data Val).try_take_owned T = .error (.Owned ⟨t, v⟩))) ∧
    ((Data.Borrowed a : Data Val).try_take_owned T = .error (.Borrowed a)) ∧
    ((Data.Mut b : Data Val).try_take_owned T = .error (.Mut b)) ∧
    (∀ d, (ctx.remove T).1 = some d →
      ((∃ w, d.try_take_owned T = .ok w) ↔ ∃ w, ctx.data T = some (.Owned ⟨T, w⟩))) := by
  refine ⟨⟨?_, ?_⟩, ?_, ?_, ?_⟩
  · intro h; simp [Data.try_take_owned, h]
  · intro h; simp [Data.try_take_owned, h]
  · simp [Data.try_take_owned]
  · simp [Data.try_take_owned]
  · intro d hd
    have hdata : ctx.data T = some d := hd
    cases d with
    | Owned e =>
      obtain ⟨t', w⟩ := e
      by_cases ht : t' = T <;> simp [Data.try_take_owned, ht, hdata]
    | Borrowed c => simp [Data.try_take_owned, hdata]
    | Mut c => simp [Data.try_take_owned, hdata]

/-- C5 witness: `remove` then `try_take_owned` succeeds on a concrete
owned entry. -/
theorem try_take_owned_spec_witness :
    ∃ w, (Data.Owned (⟨4, 11⟩ : Erased Nat)).try_take_owned 4 = .ok w :=
  ((try_take_owned_spec (((Context.new : Context Nat)).insert 4 11) 4 0 0 0 0).2.2.2
    (.Owned ⟨4, 11⟩) (by decide)).mpr ⟨11, by decide⟩

/-- C6: `into_owned::<T>()` moves the value out of a matching `Owned`
variant, returns a clone (copy) of the referent for matching `Borrowed`
and `Mut` variants, and on any type mismatch returns the original variant
unchanged as the error; the clone lives in fresh storage, so mutating it
(writing at the clone's fresh address) does not affect the referent. -/
theorem into_owned_spec {Val : Type} (heap : Heap Val) (T : Nat) (e : Erased Val)
    (a b fresh : Nat) (enew : Erased Val) (hfresh : fresh ≠ a) :
    ((e.tid = T → (Data.Owned e : Data Val).into_owned T heap = .ok e.val) ∧
     (e.tid ≠ T → (Data.Owned e : Data Val).into_owned T heap = .error (.Owned e))) ∧
    (((heap a).tid = T → (Data.Borrowed a : Data Val).into_owned T heap = .ok (heap a).val) ∧
     ((heap a).tid ≠ T →
       (Data.Borrowed a : Data Val).into_owned T heap = .error (.Borrowed a))) ∧
    (((heap b).tid = T → (Data.Mut b : Data Val).into_owned T heap = .ok (heap b).val) ∧
     ((heap b).tid ≠ T → (Data.Mut b : Data Val).into_owned T heap = .error (.Mut b))) ∧
    (Heap.write heap fresh enew a = heap a) := by
  refine ⟨⟨?_, ?_⟩, ⟨?_, ?_⟩, ⟨?_, ?_⟩, ?_⟩
  · intro h; simp [Data.into_owned, h]
  · intro h; simp [Data.into_owned, h]
  · intro h; simp [Data.into_owned, h]
  · intro h; simp [Data.into_owned, h]
  · intro h; simp [Data.into_owned, h]
  · intro h; simp [Data.into_owned, h]
  · unfold Heap.write
    rw [if_neg]
    exact fun hh => hfresh hh.symm

/-- C6 witness: `into_owned` on a concrete shared-borrowed entry returns a
copy of the referent, and writing at a fresh address leaves the referent
unchanged. -/
theorem into_owned_spec_witness :
    ((Data.Borrowed 0 : Data Nat).into_owned 3 (fun _ => ⟨3, 9⟩) = .ok 9) ∧
    (Heap.write (fun _ => ⟨3, 9⟩) 1 ⟨3, 100⟩ 0 = (⟨3, 9⟩ : Erased Nat)) := by
  have h := into_owned_spec (fun _ => (⟨3, 9⟩ : Erased Nat)) 3 ⟨3, 4⟩ 0 0 1 ⟨3, 100⟩
    (by decide)
  exact ⟨h.2.1.1 rfl, h.2.2.2⟩

/-- C7: for pairwise-distinct identities, `get_disjoint_mut` returns one
handle per key in one call, where position `i` is exactly the entry stored
for the `i`-th key (`some` iff present); writing through the two handles
for two distinct identities leaves both mutations visible via `get`, with
neither affecting the other entry. -/
theorem get_disjoint_mut_spec {Val : Type} (ctx : Context Val) (keys : List Nat)
    (_hdist : keys.Pairwise (· ≠ ·)) (k1 k2 : Nat) (hne : k1 ≠ k2) (v1 v2 : Val)
    (heap : Heap Val) :
    ((ctx.get_disjoint_mut keys).length = keys.length) ∧
    (∀ i : Nat, (ctx.get_disjoint_mut keys)[i]? = (keys[i]?).map ctx.data) ∧
    (((ctx.insert_unchecked k1 (.Owned ⟨k1, v1⟩)).insert_unchecked k2
        (.Owned ⟨k2, v2⟩)).get k1 heap = some v1) ∧
    (((ctx.insert_unchecked k1 (.Owned ⟨k1, v1⟩)).insert_unchecked k2
        (.Owned ⟨k2, v2⟩)).get k2 heap = some v2) := by
  refine ⟨?_, ?_, ?_, ?_⟩
  · simp [Context.get_disjoint_mut]
  · intro i
    simp [Context.get_disjoint_mut]
  · simp [Context.insert_unchecked, Context.get, Data.downcast_ref, hne]
  · simp [Context.insert_unchecked, Context.get, Data.downcast_ref]

/-- C7 witness: two disjoint writes at distinct concrete keys are both
visible via `get`. -/
theorem get_disjoint_mut_spec_witness :
    (((((Context.new : Context Nat)).insert_unchecked 1 (.Owned ⟨1, 10⟩)).insert_unchecked 2
        (.Owned ⟨2, 20⟩)).get 1 (fun _ => ⟨0, 0⟩) = some 10) ∧
    (((((Context.new : Context Nat)).insert_unchecked 1 (.Owned ⟨1, 10⟩)).insert_unchecked 2
        (.Owned ⟨2, 20⟩)).get 2 (fun _ => ⟨0, 0⟩) = some 20) := by
  have h := get_disjoint_mut_spec ((Context.new : Context Nat)) [1, 2] (by decide) 1 2
    (by decide) 10 20 (fun _ => ⟨0, 0⟩)
  exact ⟨h.2.2.1, h.2.2.2⟩

/-- C8: every lookup operation surfaces absence or erased-type mismatch as
an empty result (`none` / `false`): on an absent key all of `get`,
`get_mut`, `get_data`, `get_data_mut`, `take`, `remove`, `contains` are
empty, and on a present entry whose erased type does not match `T`, `get`,
`get_mut` and `take`'s result are `none`. -/
theorem lookup_failure_semantics {Val : Type} (ctx : Context Val) (T : Nat)
    (heap : Heap Val) :
    (ctx.data T = none →
      ctx.get T heap = none ∧ ctx.get_mut T heap = none ∧ ctx.get_data T = none ∧
      ctx.get_data_mut T = none ∧ (ctx.take T).1 = none ∧ (ctx.remove T).1 = none ∧
      ctx.contains T = false) ∧
    (∀ d, ctx.data T = some d → d.erasedTid heap ≠ T →
      ctx.get T heap = none ∧ ctx.get_mut T heap = none ∧ (ctx.take T).1 = none) := by
  constructor
  · intro h
    simp [Context.get, Context.get_mut, Context.get_data, Context.get_data_mut,
      Context.take, Context.remove, Context.contains, h]
  · intro d hd hmis
    cases d with
    | Owned e =>
      simp only [Data.erasedTid] at hmis
      simp [Context.get, Context.get_mut, Context.take, hd, Data.downcast_ref,
        Data.downcast_mut, Data.try_take_owned, Except.toOption, hmis]
    | Borrowed a =>
      simp only [Data.erasedTid] at hmis
      simp [Context.get, Context.get_mut, Context.take, hd, Data.downcast_ref,
        Data.downcast_mut, Data.try_take_owned, Except.toOption, hmis]
    | Mut a =>
      simp only [Data.erasedTid] at hmis
      simp [Context.get, Context.get_mut, Context.take, hd, Data.downcast_ref,
        Data.downcast_mut, Data.try_take_owned, Except.toOption, hmis]

/-- C8 witness: `get` is empty on an absent key and on a concrete
type-mismatched entry. -/
theorem lookup_failure_semantics_witness :
    (((Context.new : Context Nat)).get 0 (fun _ => ⟨0, 0⟩) = none) ∧
    ((((Context.new : Context Nat)).insert_unchecked 2 (.Owned ⟨1, 5⟩)).get 2
      (fun _ => ⟨0, 0⟩) = none) :=
  ⟨((lookup_failure_semantics ((Context.new : Context Nat)) 0 (fun _ => ⟨0, 0⟩)).1 rfl).1,
   ((lookup_failure_semantics (((Context.new : Context Nat)).insert_unchecked 2
        (.Owned ⟨1, 5⟩)) 2 (fun _ => ⟨0, 0⟩)).2 (.Owned ⟨1, 5⟩) (by decide) (by decide)).1⟩

/-- C9: the identity hasher is a pass-through: for every value `i` fitting
in 64 bits, `write_u64 i` then `finish` returns exactly `i`, and feeding
any raw byte sequence to `write` is an unconditional fatal failure
(modelled as `none`), never a recoverable result. -/
theorem hasher_pass_through (h : TypeIdHasher) (i : Nat) (hi : i < 2 ^ 64) :
    ((h.write_u64 i).finish = i) ∧ (∀ bytes : List Nat, h.write bytes = none) := by
  refine ⟨?_, fun _ => rfl⟩
  show i % 2 ^ 64 = i
  exact Nat.mod_eq_of_lt hi

/-- C9 witness: pass-through and unconditional `write` failure at concrete
inputs. -/
theorem hasher_pass_through_witness :
    ((TypeIdHasher.init.write_u64 12345).finish = 12345) ∧
    (TypeIdHasher.init.write [1, 2] = none) :=
  ⟨(hasher_pass_through TypeIdHasher.init 12345 (by norm_num)).1,
   (hasher_pass_through TypeIdHasher.init 12345 (by norm_num)).2 [1, 2]⟩

/-- C10: frame property: for a type identity `U` distinct from `T`, each
of `insert`, `insert_ref`, `insert_mut`, `take` and `remove` at `T` leaves
the whole entry stored for `U` (presence, variant and value) unchanged. -/
theorem frame_distinct_types {Val : Type} (ctx : Context Val) (T U : Nat) (hne : U ≠ T)
    (v : Val) (a b : Nat) :
    ((ctx.insert T v).data U = ctx.data U) ∧
    ((ctx.insert_ref T a).data U = ctx.data U) ∧
    ((ctx.insert_mut T b).data U = ctx.data U) ∧
    ((ctx.take T).2.data U = ctx.data U) ∧
    ((ctx.remove T).2.data U = ctx.data U) := by
  have htake : (ctx.take T).2.data U = ctx.data U := by
    cases h : ctx.data T <;> simp [Context.take, Context.eraseKey, h, hne]
  refine ⟨?_, ?_, ?_, htake, ?_⟩ <;>
    simp [Context.insert, Context.insert_ref, Context.insert_mut, Context.insert_unchecked,
      Context.remove, Context.eraseKey, hne]

/-- C10 witness: inserting at one concrete identity leaves the entry at
another identity unchanged. -/
theorem frame_distinct_types_witness :
    ((((Context.new : Context Nat)).insert 1 5).insert 2 6).data 1 =
      (((Context.new : Context Nat)).insert 1 5).data 1 :=
  (frame_distinct_types (((Context.new : Context Nat)).insert 1 5) 2 1 (by decide) 6 0 0).1

end RuntimeContext
